import Mathlib

/-!
# secure-auth-demo: refresh-token lifecycle and bearer-token middleware

A shallow embedding of `server/internal/auth` (`service.go`, `handler.go`,
`middleware.go`).

Conventions of the embedding:

* `time.Time` is an `Int` number of nanoseconds since the Unix epoch and
  `time.Duration` an `Int` number of nanoseconds.  Every `time.Now()` of the
  source is an explicit argument, one per call site, in source order.
* The `refresh_tokens` table is the list of its rows in scan order.  A
  statement sent through `s.DB` either is executed (flag `true`) or fails
  without effect (flag `false`); the flag is an argument of the operation.
* `uuid.NewString()` / `uuid.New()` are explicit arguments.
* The JWT library is modelled symbolically (see `SignedToken`, `Codec`).
-/

namespace SecureAuth

/-! ## Time -/

/-- Instant on the wall clock, in nanoseconds since the Unix epoch. -/
abbrev Time := Int

/-- Length of time in nanoseconds (`time.Duration`). -/
abbrev Duration := Int

/-- One second, `time.Second`. -/
def Second : Duration := 1000000000

/-- One minute, `time.Minute`. -/
def Minute : Duration := 60 * Second

/-- One hour, `time.Hour`. -/
def Hour : Duration := 60 * Minute

/-- Method `t.Add(d)`. -/
def timeAdd (t : Time) (d : Duration) : Time := t + d

/-- Method `t.Unix()`: whole seconds since the epoch, rounded down. -/
def timeUnix (t : Time) : Int := t / 1000000000

/-- Method `t.After(u)`. -/
def timeAfter (t u : Time) : Bool := decide (u < t)

/-- Method `t.Before(u)`. -/
def timeBefore (t u : Time) : Bool := decide (t < u)

/-- Function `time.Unix(sec, 0)`. -/
def timeOfUnix (sec : Int) : Time := sec * 1000000000

/-- Method `d.Seconds()` for the whole-second constants of the handlers. -/
def durationSeconds (d : Duration) : Int := d / 1000000000

/-! ## Errors -/

/-- Go `error` values that occur in the package. -/
inductive Error where
  /-- The pool could not execute the statement. -/
  | dbFailure
  /-- Value `pgx.ErrNoRows`: `QueryRow(...).Scan` found no row. -/
  | errNoRows
  /-- Value built by `errors.New(msg)`. -/
  | new (msg : String)
deriving DecidableEq, Repr

deriving instance DecidableEq for Except

/-- Method `err.Error()`. -/
def Error.text : Error → String
  | .dbFailure => "database failure"
  | .errNoRows => "no rows in result set"
  | .new msg => msg

/-! ## The refresh store -/

/-- One row of table `refresh_tokens`. -/
structure Row where
  id : String
  user_id : String
  token : String
  expires_at : Time
  revoked_at : Option Time
deriving DecidableEq, Repr

/-- Table `refresh_tokens`, rows in scan order. -/
abbrev Table := List Row

/-- Struct `RefreshRecord` of `service.go`. -/
structure RefreshRecord where
  UserID : String
  ExpiresAt : Time
  RevokedAt : Option Time
deriving DecidableEq, Repr

/-- Columns `user_id, expires_at, revoked_at` scanned into a `RefreshRecord`. -/
def Row.scan (r : Row) : RefreshRecord :=
  { UserID := r.user_id, ExpiresAt := r.expires_at, RevokedAt := r.revoked_at }

/-- Statement `INSERT INTO refresh_tokens (id, user_id, token, expires_at) VALUES ...`. -/
def sqlInsert (db : Table) (id userID token : String) (expiresAt : Time) : Table :=
  db ++ [{ id := id, user_id := userID, token := token, expires_at := expiresAt,
           revoked_at := none }]

/-- Statement `UPDATE refresh_tokens SET revoked_at = $1 WHERE token = $2`. -/
def sqlRevoke (db : Table) (now : Time) (token : String) : Table :=
  db.map fun r => if r.token = token then { r with revoked_at := some now } else r

/-- Statement `SELECT user_id, expires_at, revoked_at FROM refresh_tokens WHERE token = $1`
read with `QueryRow`: the first matching row, if any. -/
def sqlSelect (db : Table) (token : String) : Option RefreshRecord :=
  (db.find? fun r => decide (r.token = token)).map Row.scan

/-- Method `Service.CreateRefreshToken`.  `up` tells whether the pool executes the
statement, `refreshToken` is `uuid.NewString()`, `refreshID` is `uuid.New()`, `now`
is `time.Now()`.  The token is returned together with the error, as in the source. -/
def CreateRefreshToken (db : Table) (up : Bool) (refreshToken refreshID : String)
    (now : Time) (userID : String) (refreshTTL : Duration) :
    Table × String × Option Error :=
  let expiresAt := timeAdd now refreshTTL
  if up then (sqlInsert db refreshID userID refreshToken expiresAt, refreshToken, none)
  else (db, refreshToken, some .dbFailure)

/-- Method `Service.GetRefreshRecord`. -/
def GetRefreshRecord (db : Table) (up : Bool) (token : String) :
    Except Error RefreshRecord :=
  if up then
    match sqlSelect db token with
    | some rec => .ok rec
    | none => .error .errNoRows
  else .error .dbFailure

/-- Method `Service.RevokeRefreshToken`; `now` is the `time.Now()` of the statement. -/
def RevokeRefreshToken (db : Table) (up : Bool) (now : Time) (token : String) :
    Table × Option Error :=
  if up then (sqlRevoke db now token, none) else (db, some .dbFailure)

/-- Method `Service.RotateRefreshToken`: revoke the old token, then create a new one. -/
def RotateRefreshToken (db : Table) (upRevoke upCreate : Bool) (nowRevoke nowCreate : Time)
    (refreshToken refreshID : String) (oldToken userID : String) (refreshTTL : Duration) :
    Table × String × Option Error :=
  match RevokeRefreshToken db upRevoke nowRevoke oldToken with
  | (db1, some err) => (db1, "", some err)
  | (db1, none) => CreateRefreshToken db1 upCreate refreshToken refreshID nowCreate userID refreshTTL

/-- Function `ValidateRefreshRecord`; `now` is its `time.Now()`. -/
def ValidateRefreshRecord (now : Time) (rec : RefreshRecord) : Option Error :=
  if timeAfter now rec.ExpiresAt then some (.new "refresh token expired")
  else if rec.RevokedAt ≠ none then some (.new "refresh token revoked")
  else none

/-- A record is active at `now`: not revoked and `now < ExpiresAt` (spec, data model). -/
def RefreshRecord.active (rec : RefreshRecord) (now : Time) : Prop :=
  rec.RevokedAt = none ∧ now < rec.ExpiresAt

instance (rec : RefreshRecord) (now : Time) : Decidable (rec.active now) := by
  unfold RefreshRecord.active; infer_instance

/-! ## HTTP framing -/

/-- Fields of `http.Cookie` that the handlers set. -/
structure Cookie where
  Name : String
  Value : String
  HttpOnly : Bool
  Secure : Bool
  SameSite : String
  Path : String
  MaxAge : Int
deriving DecidableEq, Repr

/-- Response body: plain bytes, or the JSON object written by `json.NewEncoder(w).Encode`
for a `map[string]string`, kept as its key/value pairs. -/
inductive Body where
  | text (s : String)
  | json (fields : List (String × String))
deriving DecidableEq, Repr

/-- What a handler has written to its `http.ResponseWriter`. -/
structure Response where
  status : Nat
  contentType : Option String
  cookies : List Cookie
  body : Body
deriving DecidableEq, Repr

/-- Status `http.StatusOK`. -/
def StatusOK : Nat := 200
/-- Status `http.StatusBadRequest`. -/
def StatusBadRequest : Nat := 400
/-- Status `http.StatusUnauthorized`. -/
def StatusUnauthorized : Nat := 401
/-- Status `http.StatusInternalServerError`. -/
def StatusInternalServerError : Nat := 500

/-- Function `http.Error(w, msg, code)`: plain-text body `msg` followed by a newline. -/
def httpError (msg : String) (code : Nat) : Response :=
  { status := code, contentType := some "text/plain; charset=utf-8", cookies := [],
    body := .text (msg ++ "\n") }

/-- Outcome of serving one request: a written response, or a run-time panic
(failed type assertion), which `net/http` turns into an aborted connection. -/
inductive Served where
  | wrote (resp : Response)
  | panic
deriving DecidableEq, Repr

/-- The parts of `*http.Request` the handlers read. -/
structure Request where
  /-- Value `r.Header.Get("Authorization")`, empty when the header is absent. -/
  authorization : String
  /-- Value of `r.Cookie("refresh_token")`, `none` for `http.ErrNoCookie`. -/
  refreshCookie : Option String
  /-- Field `id_token` of the JSON body, `none` when decoding fails. -/
  idToken : Option String
  /-- Value `r.Context().Value("userID")` when it is a string. -/
  ctxUserID : Option String
deriving DecidableEq, Repr

/-- Constant `AccessTTLDev`. -/
def AccessTTLDev : Duration := 15 * Second
/-- Constant `AccessTTLProd`. -/
def AccessTTLProd : Duration := 15 * Minute
/-- Constant `RefreshTTLProd`. -/
def RefreshTTLProd : Duration := 7 * 24 * Hour

/-- Function `setRefreshCookie`. -/
def setRefreshCookie (token : String) : Cookie :=
  { Name := "refresh_token", Value := token, HttpOnly := true, Secure := false,
    SameSite := "Lax", Path := "/", MaxAge := durationSeconds RefreshTTLProd }

/-- Function `clearRefreshCookie`. -/
def clearRefreshCookie : Cookie :=
  { Name := "refresh_token", Value := "", HttpOnly := true, Secure := false,
    SameSite := "Lax", Path := "/", MaxAge := -1 }

/-! ## The JWT library, symbolically

`github.com/golang-jwt/jwt/v5` is not part of the repository.  A compact token is a
`String`; what the library reads out of it is a `SignedToken`: the algorithm of its
header, its claim set, and the key under which its signature verifies (`none` when it
verifies under no key).  The HMAC is ideal: a signature made with one key verifies
under that key only.  Serialisation (base64url, JSON) is the `Codec`.  Numeric claims
are whole seconds, as `CreateAccessToken` writes them.
-/

/-- Value of one entry of `jwt.MapClaims`. -/
inductive ClaimValue where
  | str (s : String)
  | num (n : Int)
  | other
deriving DecidableEq, Repr

/-- Type `jwt.MapClaims`. -/
abbrev MapClaims := List (String × ClaimValue)

/-- Algorithm named in the token header. -/
inductive SigningMethod where
  | HS256
  | HS384
  | HS512
  /-- Any non-HMAC method (`none`, RSA, ECDSA, ...). -/
  | other
deriving DecidableEq, Repr

/-- Signing secret, the `[]byte` of `Service.JWTSecret`. -/
abbrev Secret := List Nat

/-- Content of a compact token. -/
structure SignedToken where
  alg : SigningMethod
  claims : MapClaims
  /-- Key under which the signature verifies. -/
  mac : Option Secret
deriving DecidableEq, Repr

/-- Serialisation of tokens: `encode` is `token.SignedString`, `decode` is what
`jwt.Parse` reads back.  Every serialised token is a non-empty string that decodes to
itself. -/
structure Codec where
  encode : SignedToken → String
  decode : String → Option SignedToken
  decode_encode : ∀ t, decode (encode t) = some t
  encode_ne_empty : ∀ t, encode t ≠ ""

/-- Errors of `jwt.Parse`. -/
inductive JWTError where
  | malformed
  | unverifiable
  | signatureInvalid
  | expired
  | notValidYet
  | invalidClaims
deriving DecidableEq, Repr

/-- Check of `exp` by the default validator: absent passes, a number must be after `now`. -/
def verifyExpiresAt (now : Time) (c : MapClaims) : Option JWTError :=
  match c.lookup "exp" with
  | none => none
  | some (.num e) => if timeBefore now (timeOfUnix e) then none else some .expired
  | some _ => some .invalidClaims

/-- Check of `nbf` by the default validator. -/
def verifyNotBefore (now : Time) (c : MapClaims) : Option JWTError :=
  match c.lookup "nbf" with
  | none => none
  | some (.num n) => if timeBefore now (timeOfUnix n) then some .notValidYet else none
  | some _ => some .invalidClaims

/-- Default claim validation of `jwt.Parse` (no options): `exp`, then `nbf`. -/
def validateClaims (now : Time) (c : MapClaims) : Option JWTError :=
  match verifyExpiresAt now c with
  | some e => some e
  | none => verifyNotBefore now c

/-- Function `jwt.Parse(tokenString, keyFunc)` with a key function that returns `key`;
`.ok claims` stands for `err == nil` and `token.Valid`. -/
def jwtParse (codec : Codec) (tokenString : String) (key : Secret) (now : Time) :
    Except JWTError MapClaims :=
  match codec.decode tokenString with
  | none => .error .malformed
  | some tok =>
    match tok.alg with
    | .other => .error .unverifiable
    | _ =>
      if tok.mac = some key then
        match validateClaims now tok.claims with
        | none => .ok tok.claims
        | some e => .error e
      else .error .signatureInvalid

/-! ## Service and handlers -/

/-- Struct `Service`: the identity verifier (`FirebaseAuth.VerifyIDToken`, returning
the UID of an accepted assertion), the signing secret, and the JWT serialisation.  The
table behind `DB` is threaded through the operations. -/
structure Service where
  FirebaseAuth : String → Option String
  JWTSecret : Secret
  jwt : Codec

/-- Claim set built in `CreateAccessToken`: `nowExp` is the `time.Now()` of the `exp`
line, `nowIat` the one of the `iat` line. -/
def accessClaims (userID : String) (accessTTL : Duration) (nowExp nowIat : Time) : MapClaims :=
  [("sub", .str userID),
   ("exp", .num (timeUnix (timeAdd nowExp accessTTL))),
   ("iat", .num (timeUnix nowIat))]

/-- Method `Service.CreateAccessToken`.  Signing with HS256 and a `[]byte` key does not
fail. -/
def CreateAccessToken (s : Service) (userID : String) (accessTTL : Duration)
    (nowExp nowIat : Time) : Except Error String :=
  .ok (s.jwt.encode { alg := .HS256, claims := accessClaims userID accessTTL nowExp nowIat,
                      mac := some s.JWTSecret })

/-- Response of a successful exchange or refresh. -/
def tokenResponse (refreshToken accessToken : String) : Response :=
  { status := StatusOK, contentType := some "application/json",
    cookies := [setRefreshCookie refreshToken],
    body := .json [("access_token", accessToken)] }

/-- Clock readings, store availability and fresh identifiers seen by one `Exchange`. -/
structure ExchangeEnv where
  nowExp : Time
  nowIat : Time
  nowCreate : Time
  upCreate : Bool
  refreshToken : String
  refreshID : String

/-- Method `Handler.Exchange`. -/
def Exchange (s : Service) (db : Table) (env : ExchangeEnv) (r : Request) : Table × Response :=
  match r.idToken with
  | none => (db, httpError "Invalid request body" StatusBadRequest)
  | some idToken =>
    match s.FirebaseAuth idToken with
    | none => (db, httpError "Invalid Firebase token" StatusUnauthorized)
    | some userID =>
      match CreateAccessToken s userID AccessTTLDev env.nowExp env.nowIat with
      | .error _ => (db, httpError "Failed to create access token" StatusInternalServerError)
      | .ok accessToken =>
        match CreateRefreshToken db env.upCreate env.refreshToken env.refreshID env.nowCreate
            userID RefreshTTLProd with
        | (db1, _, some _) =>
          (db1, httpError "Failed to store refresh token" StatusInternalServerError)
        | (db1, refreshToken, none) => (db1, tokenResponse refreshToken accessToken)

/-- Clock readings, store availability and fresh identifiers seen by one `Refresh`. -/
structure RefreshEnv where
  upGet : Bool
  upRevoke : Bool
  upCreate : Bool
  nowValidate : Time
  nowRevoke : Time
  nowCreate : Time
  nowExp : Time
  nowIat : Time
  refreshToken : String
  refreshID : String

/-- Method `Handler.Refresh`. -/
def Refresh (s : Service) (db : Table) (env : RefreshEnv) (r : Request) : Table × Response :=
  match r.refreshCookie with
  | none => (db, httpError "Missing refresh token" StatusUnauthorized)
  | some oldToken =>
    match GetRefreshRecord db env.upGet oldToken with
    | .error _ => (db, httpError "Invalid refresh token" StatusUnauthorized)
    | .ok rec =>
      match ValidateRefreshRecord env.nowValidate rec with
      | some err => (db, httpError err.text StatusUnauthorized)
      | none =>
        match RotateRefreshToken db env.upRevoke env.upCreate env.nowRevoke env.nowCreate
            env.refreshToken env.refreshID oldToken rec.UserID RefreshTTLProd with
        | (db1, _, some _) =>
          (db1, httpError "Failed to rotate refresh token" StatusInternalServerError)
        | (db1, newRefresh, none) =>
          match CreateAccessToken s rec.UserID AccessTTLDev env.nowExp env.nowIat with
          | .error _ =>
            (db1, httpError "Failed to create access token" StatusInternalServerError)
          | .ok newAccess => (db1, tokenResponse newRefresh newAccess)

/-- Method `Handler.Logout`; `upRevoke` and `nowRevoke` belong to its revoke statement. -/
def Logout (db : Table) (upRevoke : Bool) (nowRevoke : Time) (r : Request) : Table × Response :=
  match r.refreshCookie with
  | none => (db, httpError "No refresh token" StatusUnauthorized)
  | some value =>
    let db1 := (RevokeRefreshToken db upRevoke nowRevoke value).1
    (db1, { status := StatusOK, contentType := none, cookies := [clearRefreshCookie],
            body := .text "Logged out successfully" })

/-- Value of the `message` field written by `Profile`. -/
def profileMessage : String := "Protected profile data üîê"

/-- Method `Handler.Profile`. -/
def Profile (r : Request) : Served :=
  match r.ctxUserID with
  | none => .panic
  | some userID =>
    .wrote { status := StatusOK, contentType := some "application/json", cookies := [],
             body := .json [("message", profileMessage), ("user_id", userID)] }

/-! ## Access middleware -/

/-- Constant `prefix` of `JWTMiddleware`. -/
def bearer : String := "Bearer "

/-- Slice `s[:n]`. -/
def strTake (n : Nat) (s : String) : String := ⟨s.data.take n⟩

/-- Slice `s[n:]`. -/
def strDrop (n : Nat) (s : String) : String := ⟨s.data.drop n⟩

/-- What the closure of `JWTMiddleware` does with a request. -/
inductive MwStep where
  /-- It wrote `resp` and returned. -/
  | respond (resp : Response)
  /-- The assertion `claims["sub"].(string)` failed. -/
  | fault
  /-- It called `next.ServeHTTP` with `userID` stored in the context. -/
  | callNext (userID : String)
deriving DecidableEq, Repr

/-- Body of the closure in `JWTMiddleware` up to the call of `next`; `now` is the clock
of `jwt.Parse`. -/
def JWTMiddlewareStep (s : Service) (now : Time) (authHeader : String) : MwStep :=
  if authHeader = "" then
    .respond (httpError "Missing Authorization header" StatusUnauthorized)
  else if authHeader.length ≤ bearer.length ∨ strTake bearer.length authHeader ≠ bearer then
    .respond (httpError "Invalid Authorization format" StatusUnauthorized)
  else
    let tokenString := strDrop bearer.length authHeader
    match jwtParse s.jwt tokenString s.JWTSecret now with
    | .error _ => .respond (httpError "Invalid or expired token" StatusUnauthorized)
    | .ok claims =>
      match claims.lookup "sub" with
      | some (.str userID) => .callNext userID
      | _ => .fault

/-- Method `Service.JWTMiddleware` applied to `next`. -/
def JWTMiddleware (s : Service) (next : Request → Served) (now : Time) (r : Request) : Served :=
  match JWTMiddlewareStep s now r.authorization with
  | .respond resp => .wrote resp
  | .fault => .panic
  | .callNext userID => next { r with ctxUserID := some userID }

/-! ## A concrete serialisation

An instance of `Codec`, so that the interface is inhabited: a token is numbered by
`Encodable` and written as that many characters plus one.
-/

instance : Encodable Char :=
  Encodable.ofLeftInjection Char.toNat (fun n => some (Char.ofNat n)) (by intro c; simp)

instance : Encodable String :=
  Encodable.ofLeftInjection String.data (fun l => some ⟨l⟩) (by intro s; rfl)

/-- Tagged form of a claim value. -/
def ClaimValue.toSum : ClaimValue → String ⊕ (Int ⊕ Unit)
  | .str s => .inl s
  | .num n => .inr (.inl n)
  | .other => .inr (.inr ())

/-- Inverse of `ClaimValue.toSum`. -/
def ClaimValue.ofSum : String ⊕ (Int ⊕ Unit) → ClaimValue
  | .inl s => .str s
  | .inr (.inl n) => .num n
  | .inr (.inr _) => .other

instance : Encodable ClaimValue :=
  Encodable.ofLeftInjection ClaimValue.toSum (fun x => some (ClaimValue.ofSum x))
    (by intro v; cases v <;> rfl)

/-- Index of a signing method. -/
def SigningMethod.index : SigningMethod → Nat
  | .HS256 => 0
  | .HS384 => 1
  | .HS512 => 2
  | .other => 3

/-- Signing method of an index. -/
def SigningMethod.ofIndex : Nat → SigningMethod
  | 0 => .HS256
  | 1 => .HS384
  | 2 => .HS512
  | _ => .other

instance : Encodable SigningMethod :=
  Encodable.ofLeftInjection SigningMethod.index (fun n => some (SigningMethod.ofIndex n))
    (by intro m; cases m <;> rfl)

instance : Encodable SignedToken :=
  Encodable.ofLeftInjection (fun t => (t.alg, t.claims, t.mac))
    (fun x => some { alg := x.1, claims := x.2.1, mac := x.2.2 }) (by intro t; rfl)

/-- Token number `n` written in unary, never empty. -/
def unaryString (n : Nat) : String := ⟨List.replicate (n + 1) 'x'⟩

/-- Serialisation by token number. -/
def unaryCodec : Codec where
  encode t := unaryString (Encodable.encode t)
  decode s := if s.length = 0 then none else Encodable.decode (s.length - 1)
  decode_encode t := by simp [unaryString, String.length]
  encode_ne_empty t := by
    intro h
    have := congrArg String.length h
    simp [unaryString, String.length] at this

/-! ## Refresh, one store statement at a time

`Handler.Refresh` holds no lock and opens no transaction: between two of its store
statements another request may run.  `refreshStep` is the handler cut at its store
statements: lookup with validation, revoke, create with the response.
-/

/-- Where one `Refresh` call stands. -/
inductive CallState where
  /-- The cookie is read; nothing has been sent to the store. -/
  | start
  /-- `GetRefreshRecord` and `ValidateRefreshRecord` passed for this owner. -/
  | validated (userID : String)
  /-- `RevokeRefreshToken` has run. -/
  | revoked (userID : String)
  /-- The handler has returned. -/
  | done (resp : Response)
deriving DecidableEq, Repr

/-- Values fixed for one call: its fresh identifiers and the clock readings of its
access token. -/
structure CallEnv where
  refreshToken : String
  refreshID : String
  nowExp : Time
  nowIat : Time

/-- Next store statement of a `Refresh` call for cookie value `oldToken`; `up` and `now`
are the availability of the store and the clock at this statement. -/
def refreshStep (s : Service) (oldToken : String) (c : CallEnv) (up : Bool) (now : Time)
    (db : Table) : CallState → Table × CallState
  | .start =>
    match GetRefreshRecord db up oldToken with
    | .error _ => (db, .done (httpError "Invalid refresh token" StatusUnauthorized))
    | .ok rec =>
      match ValidateRefreshRecord now rec with
      | some err => (db, .done (httpError err.text StatusUnauthorized))
      | none => (db, .validated rec.UserID)
  | .validated userID =>
    match RevokeRefreshToken db up now oldToken with
    | (db1, some _) =>
      (db1, .done (httpError "Failed to rotate refresh token" StatusInternalServerError))
    | (db1, none) => (db1, .revoked userID)
  | .revoked userID =>
    match CreateRefreshToken db up c.refreshToken c.refreshID now userID RefreshTTLProd with
    | (db1, _, some _) =>
      (db1, .done (httpError "Failed to rotate refresh token" StatusInternalServerError))
    | (db1, newRefresh, none) =>
      match CreateAccessToken s userID AccessTTLDev c.nowExp c.nowIat with
      | .error _ =>
        (db1, .done (httpError "Failed to create access token" StatusInternalServerError))
      | .ok newAccess => (db1, .done (tokenResponse newRefresh newAccess))
  | .done resp => (db, .done resp)

/-- Two `Refresh` calls `a` and `b` for the same cookie value under a schedule: entry
`false` lets `a` run its next statement, `true` lets `b`; slot `i` runs at `clock i`
with store availability `up i`. -/
def raceRun (s : Service) (oldToken : String) (a b : CallEnv) (clock : Nat → Time)
    (up : Nat → Bool) : List Bool → Nat → Table × CallState × CallState →
    Table × CallState × CallState
  | [], _, st => st
  | false :: rest, i, (db, ca, cb) =>
    let r := refreshStep s oldToken a (up i) (clock i) db ca
    raceRun s oldToken a b clock up rest (i + 1) (r.1, r.2, cb)
  | true :: rest, i, (db, ca, cb) =>
    let r := refreshStep s oldToken b (up i) (clock i) db cb
    raceRun s oldToken a b clock up rest (i + 1) (r.1, ca, r.2)

/-- All schedules in which `a` gets `m` slots and `b` gets `n`. -/
def interleavings : Nat → Nat → List (List Bool)
  | 0, n => [List.replicate n true]
  | m + 1, 0 => [List.replicate (m + 1) false]
  | m + 1, n + 1 =>
    (interleavings m (n + 1)).map (fun l => false :: l) ++
      (interleavings (m + 1) n).map (fun l => true :: l)

/-- The call observed the record as active and minted: it returned 200. -/
def CallState.minted : CallState → Bool
  | .done resp => decide (resp.status = StatusOK)
  | _ => false

/-- The call failed with `Unauthorized`. -/
def CallState.unauthorized : CallState → Bool
  | .done resp => decide (resp.status = StatusUnauthorized)
  | _ => false

/-- Both lookups come before either revoke: the first two slots go to different calls. -/
def lookupsFirst : List Bool → Bool
  | x :: y :: _ => x != y
  | _ => false

/-- Repeated sequential `Refresh` calls with the same request. -/
def refreshMany (s : Service) (r : Request) : Table → List RefreshEnv → Table × List Response
  | db, [] => (db, [])
  | db, env :: envs =>
    let out := Refresh s db env r
    let more := refreshMany s r out.1 envs
    (more.1, out.2 :: more.2)

/-! ## Sample data -/

/-- A service with secret `[1, 2, 3]` whose verifier accepts the assertion `good` for
subject `u1`. -/
def demoService : Service :=
  { FirebaseAuth := fun a => if a = "good" then some "u1" else none,
    JWTSecret := [1, 2, 3], jwt := unaryCodec }

/-- A store with one active record `t1` of `u1` and one record `t0` revoked at time 5. -/
def demoTable : Table :=
  [{ id := "i1", user_id := "u1", token := "t1", expires_at := 100, revoked_at := none },
   { id := "i0", user_id := "u1", token := "t0", expires_at := 100, revoked_at := some 5 }]

/-- A refresh environment with the store available and clock readings 10 to 14. -/
def demoRefreshEnv : RefreshEnv :=
  { upGet := true, upRevoke := true, upCreate := true, nowValidate := 10, nowRevoke := 11,
    nowCreate := 12, nowExp := 13, nowIat := 14, refreshToken := "t2", refreshID := "i2" }

/-- A token of `u1` signed with the sample secret whose `exp` is second 10. -/
def expiredToken : SignedToken :=
  { alg := .HS256, claims := [("sub", .str "u1"), ("exp", .num 10)], mac := some [1, 2, 3] }

/-- Two calls of the sample race, with fresh tokens `ta` and `tb`. -/
def demoCallA : CallEnv := { refreshToken := "ta", refreshID := "ia", nowExp := 13, nowIat := 14 }

/-- Second call of the sample race. -/
def demoCallB : CallEnv := { refreshToken := "tb", refreshID := "ib", nowExp := 15, nowIat := 16 }

/-- A request carrying refresh cookie `value` and nothing else. -/
def cookieRequest (value : String) : Request :=
  { authorization := "", refreshCookie := some value, idToken := none, ctxUserID := none }

/-- A request carrying the Authorization header `value` and nothing else. -/
def bearerRequest (value : String) : Request :=
  { authorization := value, refreshCookie := none, idToken := none, ctxUserID := none }

/-- Effect of the revoke statement on one row: the row for `token` gets
`revoked_at = now` and keeps its other columns, any other row is untouched. -/
def revokedFrom (now : Time) (token : String) (r r1 : Row) : Prop :=
  r1.id = r.id ∧ r1.user_id = r.user_id ∧ r1.token = r.token ∧
    r1.expires_at = r.expires_at ∧
    (r.token = token → r1.revoked_at = some now) ∧ (r.token ≠ token → r1 = r)

/-! ## Lemmas on the store statements -/

theorem sqlRevoke_length (db : Table) (now : Time) (token : String) :
    (sqlRevoke db now token).length = db.length := by
  simp [sqlRevoke]

theorem sqlInsert_length (db : Table) (id userID token : String) (e : Time) :
    (sqlInsert db id userID token e).length = db.length + 1 := by
  simp [sqlInsert]

theorem sqlSelect_sqlRevoke (db : Table) (now : Time) (token : String) :
    sqlSelect (sqlRevoke db now token) token =
      (sqlSelect db token).map fun rec => { rec with RevokedAt := some now } := by
  induction db with
  | nil => simp [sqlSelect, sqlRevoke]
  | cons r rest ih =>
    simp only [sqlSelect, sqlRevoke] at ih ⊢
    by_cases h : r.token = token
    · simp [List.find?, h, Row.scan]
    · simp [List.find?, h]
      simpa using ih

theorem sqlSelect_sqlRevoke_of_some {db : Table} {token : String} {rec : RefreshRecord}
    (now : Time) (h : sqlSelect db token = some rec) :
    sqlSelect (sqlRevoke db now token) token = some { rec with RevokedAt := some now } := by
  rw [sqlSelect_sqlRevoke, h]; rfl

theorem sqlSelect_sqlInsert_of_some {db : Table} {token : String} {rec : RefreshRecord}
    (id userID tok : String) (e : Time) (h : sqlSelect db token = some rec) :
    sqlSelect (sqlInsert db id userID tok e) token = some rec := by
  simp only [sqlSelect, sqlInsert, Option.map_eq_some'] at h ⊢
  obtain ⟨a, ha, hs⟩ := h
  exact ⟨a, by simp [List.find?_append, ha], hs⟩

theorem sqlRevoke_forall₂ (db : Table) (now : Time) (token : String) :
    List.Forall₂ (revokedFrom now token) db (sqlRevoke db now token) := by
  induction db with
  | nil => simp [sqlRevoke]
  | cons r rest ih =>
    simp only [sqlRevoke, List.map_cons] at ih ⊢
    refine List.Forall₂.cons ?_ ih
    by_cases h : r.token = token <;> simp [revokedFrom, h]

theorem sqlRevoke_idem (db : Table) (now : Time) (token : String) :
    sqlRevoke (sqlRevoke db now token) now token = sqlRevoke db now token := by
  simp only [sqlRevoke, List.map_map]
  apply List.map_congr_left
  intro r _
  by_cases h : r.token = token <;> simp [h]

theorem validate_eq_none_iff (now : Time) (rec : RefreshRecord) :
    ValidateRefreshRecord now rec = none ↔ rec.RevokedAt = none ∧ now ≤ rec.ExpiresAt := by
  unfold ValidateRefreshRecord timeAfter
  by_cases h1 : rec.ExpiresAt < now
  · simp [h1]
  · by_cases h2 : rec.RevokedAt = none
    · simpa [h1, h2] using not_lt.mp h1
    · simp [h1, h2]

theorem validate_expired (now : Time) (rec : RefreshRecord) (h : rec.ExpiresAt < now) :
    ValidateRefreshRecord now rec = some (.new "refresh token expired") := by
  simp [ValidateRefreshRecord, timeAfter, h]

theorem validate_revoked (now : Time) (rec : RefreshRecord) (h1 : now ≤ rec.ExpiresAt)
    (h2 : rec.RevokedAt ≠ none) :
    ValidateRefreshRecord now rec = some (.new "refresh token revoked") := by
  have : ¬ rec.ExpiresAt < now := not_lt.mpr h1
  simp [ValidateRefreshRecord, timeAfter, this, h2]

/-! ## C3: validation of a refresh record -/

/-- C3, as stated, fails: at the instant `now = ExpiresAt` a record that is not revoked
is not active, yet `ValidateRefreshRecord` accepts it. -/
theorem C3_counterexample :
    ValidateRefreshRecord 100 { UserID := "u1", ExpiresAt := 100, RevokedAt := none } = none ∧
      ¬ RefreshRecord.active { UserID := "u1", ExpiresAt := 100, RevokedAt := none } 100 := by
  decide

/-- C3, amended: `ValidateRefreshRecord` accepts exactly the records that are not revoked
and satisfy `now ≤ ExpiresAt`; it rejects every record with `ExpiresAt < now` and every
revoked record, and accepts every active record. -/
theorem C3_validate_iff (now : Time) (rec : RefreshRecord) :
    (ValidateRefreshRecord now rec = none ↔ rec.RevokedAt = none ∧ now ≤ rec.ExpiresAt) ∧
      (rec.ExpiresAt < now → ValidateRefreshRecord now rec = some (.new "refresh token expired")) ∧
      (now ≤ rec.ExpiresAt → rec.RevokedAt ≠ none →
        ValidateRefreshRecord now rec = some (.new "refresh token revoked")) ∧
      (rec.active now → ValidateRefreshRecord now rec = none) := by
  refine ⟨validate_eq_none_iff now rec, validate_expired now rec, validate_revoked now rec, ?_⟩
  · intro h
    exact (validate_eq_none_iff now rec).2 ⟨h.1, le_of_lt h.2⟩

/-- Witness of `C3_validate_iff`: an expired record, a revoked one and an active one. -/
theorem C3_validate_iff_witness :
    ValidateRefreshRecord 101 { UserID := "u1", ExpiresAt := 100, RevokedAt := none } =
        some (.new "refresh token expired") ∧
      ValidateRefreshRecord 50 { UserID := "u1", ExpiresAt := 100, RevokedAt := some 7 } =
        some (.new "refresh token revoked") ∧
      ValidateRefreshRecord 50 { UserID := "u1", ExpiresAt := 100, RevokedAt := none } = none :=
  ⟨(C3_validate_iff 101 { UserID := "u1", ExpiresAt := 100, RevokedAt := none }).2.1 (by decide),
   (C3_validate_iff 50 { UserID := "u1", ExpiresAt := 100, RevokedAt := some 7 }).2.2.1
     (by decide) (by decide),
   (C3_validate_iff 50 { UserID := "u1", ExpiresAt := 100, RevokedAt := none }).2.2.2
     (by decide)⟩

/-! ## C4: revoking twice -/

/-- C4, as stated, fails: revoking at time 9 a record revoked at time 5 succeeds but
changes the store; the record now carries `revoked_at = 9`. -/
theorem C4_counterexample :
    RevokeRefreshToken
        [{ id := "i1", user_id := "u1", token := "t1", expires_at := 100, revoked_at := some 5 }]
        true 9 "t1" =
      ([{ id := "i1", user_id := "u1", token := "t1", expires_at := 100, revoked_at := some 9 }],
        none) ∧
      [{ id := "i1", user_id := "u1", token := "t1", expires_at := 100, revoked_at := some 9 }] ≠
        ([{ id := "i1", user_id := "u1", token := "t1", expires_at := 100,
            revoked_at := some 5 }] : Table) := by
  decide

/-- C4, amended: when the store executes the statement, `RevokeRefreshToken` on the token
of an already revoked record succeeds at any time `now`; the record stays revoked with
its owner and expiry unchanged and `RevokedAt` overwritten by `now`, so the store changes
whenever `now` differs from the earlier timestamp; no row is added or removed and rows
of other tokens are untouched; running the same statement again with the same clock
reading changes nothing. -/
theorem C4_revoke_again (db : Table) (token : String) (rec : RefreshRecord) (t0 now : Time)
    (hsel : sqlSelect db token = some rec) (hrev : rec.RevokedAt = some t0) :
    (RevokeRefreshToken db true now token).2 = none ∧
      sqlSelect (RevokeRefreshToken db true now token).1 token =
        some { UserID := rec.UserID, ExpiresAt := rec.ExpiresAt, RevokedAt := some now } ∧
      List.Forall₂ (revokedFrom now token) db (RevokeRefreshToken db true now token).1 ∧
      RevokeRefreshToken (RevokeRefreshToken db true now token).1 true now token =
        RevokeRefreshToken db true now token ∧
      (now ≠ t0 → (RevokeRefreshToken db true now token).1 ≠ db) := by
  have hsel1 : sqlSelect (RevokeRefreshToken db true now token).1 token =
      some { UserID := rec.UserID, ExpiresAt := rec.ExpiresAt, RevokedAt := some now } := by
    simpa [RevokeRefreshToken] using sqlSelect_sqlRevoke_of_some now hsel
  refine ⟨rfl, hsel1, ?_, ?_, ?_⟩
  · simpa [RevokeRefreshToken] using sqlRevoke_forall₂ db now token
  · simp [RevokeRefreshToken, sqlRevoke_idem]
  · intro hne heq
    rw [heq, hsel] at hsel1
    have h := congrArg RefreshRecord.RevokedAt (Option.some.inj hsel1)
    rw [hrev] at h
    exact hne (Option.some.inj h).symm

/-- Witness of `C4_revoke_again` on a one-row store revoked at time 5, revoked again at 9. -/
theorem C4_revoke_again_witness :
    (RevokeRefreshToken
        [{ id := "i1", user_id := "u1", token := "t1", expires_at := 100, revoked_at := some 5 }]
        true 9 "t1").2 = none ∧
      sqlSelect (RevokeRefreshToken
        [{ id := "i1", user_id := "u1", token := "t1", expires_at := 100, revoked_at := some 5 }]
        true 9 "t1").1 "t1" =
        some { UserID := "u1", ExpiresAt := 100, RevokedAt := some 9 } :=
  have h := C4_revoke_again
    [{ id := "i1", user_id := "u1", token := "t1", expires_at := 100, revoked_at := some 5 }]
    "t1" { UserID := "u1", ExpiresAt := 100, RevokedAt := some 5 } 5 9 (by decide) rfl
  ⟨h.1, h.2.1⟩

/-! ## C2: effect of a rotation -/

theorem sqlRevoke_tokens (db : Table) (now : Time) (token : String) :
    (sqlRevoke db now token).map Row.token = db.map Row.token := by
  simp only [sqlRevoke, List.map_map]
  apply List.map_congr_left
  intro r _
  by_cases h : r.token = token <;> simp [h]

theorem mem_tokens_of_sqlSelect {db : Table} {token : String} {rec : RefreshRecord}
    (h : sqlSelect db token = some rec) : token ∈ db.map Row.token := by
  simp only [sqlSelect, Option.map_eq_some'] at h
  obtain ⟨a, ha, _⟩ := h
  have h1 := List.mem_of_find?_eq_some ha
  have h2 := List.find?_some ha
  simp only [decide_eq_true_eq] at h2
  exact List.mem_map.2 ⟨a, h1, h2⟩

/-- C2, as stated, fails: `CreateRefreshToken` stores whatever `uuid.NewString()` returns
and checks nothing.  In a store with unique token values holding the active record `t1`
of `u1`, a rotation whose generator returns `t1` again succeeds, and the record it adds
has token `t1`, not a token different from the old one. -/
theorem C2_counterexample :
    ([{ id := "i1", user_id := "u1", token := "t1", expires_at := 100, revoked_at := none },
      { id := "i2", user_id := "u2", token := "t2", expires_at := 90,
        revoked_at := none }].map Row.token).Nodup ∧
      RefreshRecord.active { UserID := "u1", ExpiresAt := 100, RevokedAt := none } 10 ∧
      sqlSelect
          [{ id := "i1", user_id := "u1", token := "t1", expires_at := 100, revoked_at := none },
           { id := "i2", user_id := "u2", token := "t2", expires_at := 90, revoked_at := none }]
          "t1" = some { UserID := "u1", ExpiresAt := 100, RevokedAt := none } ∧
      RotateRefreshToken
          [{ id := "i1", user_id := "u1", token := "t1", expires_at := 100, revoked_at := none },
           { id := "i2", user_id := "u2", token := "t2", expires_at := 90, revoked_at := none }]
          true true 10 11 "t1" "i3" "t1" "u1" 50 =
        ([{ id := "i1", user_id := "u1", token := "t1", expires_at := 100,
            revoked_at := some 10 },
          { id := "i2", user_id := "u2", token := "t2", expires_at := 90, revoked_at := none },
          { id := "i3", user_id := "u1", token := "t1", expires_at := 61, revoked_at := none }],
         "t1", none) := by
  decide

/-- C2, amended: in a store with unique token values holding an active record for
`oldToken` owned by `userID`, a successful `RotateRefreshToken` returns the value of
`uuid.NewString()` and yields the old rows, the one for `oldToken` revoked and every
other unchanged, followed by exactly one new row; the new row belongs to `userID`,
carries the generated token, expires at the clock reading of the insert plus
`refreshTTL` and is not revoked.  The new token differs from `oldToken`, and token
values stay unique, whenever the generated value is not already in the store. -/
theorem C2_rotate_effect (db : Table) (upRevoke upCreate : Bool) (nowRevoke nowCreate : Time)
    (refreshToken refreshID oldToken userID : String) (refreshTTL : Duration)
    (rec : RefreshRecord)
    (huniq : (db.map Row.token).Nodup)
    (hsel : sqlSelect db oldToken = some rec) (howner : rec.UserID = userID)
    (hact : rec.active nowRevoke)
    (hsucc : (RotateRefreshToken db upRevoke upCreate nowRevoke nowCreate refreshToken refreshID
      oldToken userID refreshTTL).2.2 = none) :
    ∃ old1 new,
      RotateRefreshToken db upRevoke upCreate nowRevoke nowCreate refreshToken refreshID
          oldToken userID refreshTTL = (old1 ++ [new], refreshToken, none) ∧
        List.Forall₂ (revokedFrom nowRevoke oldToken) db old1 ∧
        (old1.filter fun r => decide (r.token = oldToken)).length = 1 ∧
        sqlSelect (old1 ++ [new]) oldToken =
          some { UserID := userID, ExpiresAt := rec.ExpiresAt, RevokedAt := some nowRevoke } ∧
        new.user_id = userID ∧ new.token = refreshToken ∧
        new.expires_at = nowCreate + refreshTTL ∧ new.revoked_at = none ∧
        (refreshToken ∉ db.map Row.token →
          new.token ≠ oldToken ∧ ((old1 ++ [new]).map Row.token).Nodup) := by
  have _ := hact
  have hmem : oldToken ∈ db.map Row.token := mem_tokens_of_sqlSelect hsel
  have htok := sqlRevoke_tokens db nowRevoke oldToken
  cases upRevoke with
  | false => simp [RotateRefreshToken, RevokeRefreshToken] at hsucc
  | true =>
    cases upCreate with
    | false => simp [RotateRefreshToken, RevokeRefreshToken, CreateRefreshToken] at hsucc
    | true =>
      refine ⟨sqlRevoke db nowRevoke oldToken,
        { id := refreshID, user_id := userID, token := refreshToken,
          expires_at := nowCreate + refreshTTL, revoked_at := none }, ?_, ?_, ?_, ?_,
        rfl, rfl, rfl, rfl, ?_⟩
      · simp [RotateRefreshToken, RevokeRefreshToken, CreateRefreshToken, sqlInsert, timeAdd]
      · exact sqlRevoke_forall₂ db nowRevoke oldToken
      · have hc : (List.filter (fun r => decide (r.token = oldToken))
            (sqlRevoke db nowRevoke oldToken)).length =
            ((sqlRevoke db nowRevoke oldToken).map Row.token).count oldToken := by
          rw [List.count_eq_countP, List.countP_map, List.countP_eq_length_filter]
          congr 1
        rw [hc, htok]
        exact List.count_eq_one_of_mem huniq hmem
      · have h := sqlSelect_sqlInsert_of_some refreshID userID refreshToken
          (nowCreate + refreshTTL) (sqlSelect_sqlRevoke_of_some nowRevoke hsel)
        simpa [sqlInsert, howner] using h
      · intro hfresh
        refine ⟨fun h => hfresh ((show refreshToken = oldToken from h) ▸ hmem), ?_⟩
        rw [List.map_append, htok]
        simpa [List.nodup_append, huniq] using hfresh

/-- Witness of `C2_rotate_effect`: rotating `t1` of owner `u1` in a two-row store, the
generator returning the unused value `t3`. -/
theorem C2_rotate_effect_witness :
    ∃ old1 new,
      RotateRefreshToken
          [{ id := "i1", user_id := "u1", token := "t1", expires_at := 100, revoked_at := none },
           { id := "i2", user_id := "u2", token := "t2", expires_at := 90, revoked_at := none }]
          true true 10 11 "t3" "i3" "t1" "u1" 50 = (old1 ++ [new], "t3", none) ∧
        List.Forall₂ (revokedFrom 10 "t1")
          [{ id := "i1", user_id := "u1", token := "t1", expires_at := 100, revoked_at := none },
           { id := "i2", user_id := "u2", token := "t2", expires_at := 90, revoked_at := none }]
          old1 ∧
        (old1.filter fun r => decide (r.token = "t1")).length = 1 ∧
        sqlSelect (old1 ++ [new]) "t1" =
          some { UserID := "u1", ExpiresAt := 100, RevokedAt := some 10 } ∧
        new.user_id = "u1" ∧ new.token = "t3" ∧
        new.expires_at = 11 + 50 ∧ new.revoked_at = none ∧
        ("t3" ∉ ([{ id := "i1", user_id := "u1", token := "t1", expires_at := 100,
                    revoked_at := none },
                  { id := "i2", user_id := "u2", token := "t2", expires_at := 90,
                    revoked_at := none }] : Table).map Row.token →
          new.token ≠ "t1" ∧ ((old1 ++ [new]).map Row.token).Nodup) :=
  C2_rotate_effect
    [{ id := "i1", user_id := "u1", token := "t1", expires_at := 100, revoked_at := none },
     { id := "i2", user_id := "u2", token := "t2", expires_at := 90, revoked_at := none }]
    true true 10 11 "t3" "i3" "t1" "u1" 50
    { UserID := "u1", ExpiresAt := 100, RevokedAt := none }
    (by decide) (by decide) rfl (by decide) (by decide)

/-! ## C1: a refresh token is good for one refresh -/

theorem validate_revoked_ne_none (now : Time) (rec : RefreshRecord)
    (h : rec.RevokedAt ≠ none) : ValidateRefreshRecord now rec ≠ none := by
  intro hv
  exact h ((validate_eq_none_iff now rec).1 hv).1

theorem Refresh_of_revoked (s : Service) (db : Table) (env : RefreshEnv) (r : Request)
    (t : String) (rec : RefreshRecord) (hcookie : r.refreshCookie = some t)
    (hsel : sqlSelect db t = some rec) (hrev : rec.RevokedAt ≠ none) :
    (Refresh s db env r).1 = db ∧ (Refresh s db env r).2.status = StatusUnauthorized := by
  unfold Refresh
  rw [hcookie]
  cases hup : env.upGet with
  | false => simp [GetRefreshRecord, httpError]
  | true =>
    simp only [GetRefreshRecord, hsel, if_true]
    cases hv : ValidateRefreshRecord env.nowValidate rec with
    | none => exact absurd hv (validate_revoked_ne_none _ _ hrev)
    | some err => simp [httpError]

theorem Refresh_of_active (s : Service) (db : Table) (env : RefreshEnv) (r : Request)
    (t : String) (rec : RefreshRecord) (hcookie : r.refreshCookie = some t)
    (hsel : sqlSelect db t = some rec) (hnot : rec.RevokedAt = none)
    (htime : env.nowValidate ≤ rec.ExpiresAt)
    (hget : env.upGet = true) (hrev : env.upRevoke = true) (hcre : env.upCreate = true) :
    Refresh s db env r =
      (sqlInsert (sqlRevoke db env.nowRevoke t) env.refreshID rec.UserID env.refreshToken
          (env.nowCreate + RefreshTTLProd),
        tokenResponse env.refreshToken
          (s.jwt.encode { alg := .HS256,
                          claims := accessClaims rec.UserID AccessTTLDev env.nowExp env.nowIat,
                          mac := some s.JWTSecret })) := by
  have hv : ValidateRefreshRecord env.nowValidate rec = none :=
    (validate_eq_none_iff _ _).2 ⟨hnot, htime⟩
  simp [Refresh, hcookie, GetRefreshRecord, hsel, hget, hv, RotateRefreshToken,
    RevokeRefreshToken, hrev, CreateRefreshToken, hcre, CreateAccessToken, timeAdd]

theorem refreshMany_of_revoked (s : Service) (r : Request) (t : String) (rec : RefreshRecord)
    (hcookie : r.refreshCookie = some t) (hrev : rec.RevokedAt ≠ none) (db : Table)
    (hsel : sqlSelect db t = some rec) (envs : List RefreshEnv) :
    (refreshMany s r db envs).1 = db ∧ (refreshMany s r db envs).2.length = envs.length ∧
      ∀ resp ∈ (refreshMany s r db envs).2, resp.status = StatusUnauthorized := by
  induction envs with
  | nil => simp [refreshMany]
  | cons env envs ih =>
    obtain ⟨h1, h2⟩ := Refresh_of_revoked s db env r t rec hcookie hsel hrev
    simp only [refreshMany, h1]
    refine ⟨ih.1, by simp [ih.2.1], ?_⟩
    intro resp hresp
    rcases List.mem_cons.1 hresp with h | h
    · rw [h]; exact h2
    · exact ih.2.2 resp h

/-- C1: with the store available, the first `Refresh` for the token of an active record
succeeds (status 200, new cookie, old record revoked and one record inserted); every
later `Refresh` with the same cookie value, whatever its clock readings, store
availability and fresh identifiers, answers 401 and leaves the store as the first call
left it.  The lookup reads the first row matching the token in scan order. -/
theorem C1_refresh_once (s : Service) (db : Table) (env : RefreshEnv) (r : Request)
    (t : String) (rec : RefreshRecord) (hcookie : r.refreshCookie = some t)
    (hsel : sqlSelect db t = some rec) (hact : rec.active env.nowValidate)
    (hget : env.upGet = true) (hrev : env.upRevoke = true) (hcre : env.upCreate = true) :
    (Refresh s db env r).2.status = StatusOK ∧
      (Refresh s db env r).2.cookies = [setRefreshCookie env.refreshToken] ∧
      (Refresh s db env r).1 =
        sqlInsert (sqlRevoke db env.nowRevoke t) env.refreshID rec.UserID env.refreshToken
          (env.nowCreate + RefreshTTLProd) ∧
      ∀ envs : List RefreshEnv,
        (refreshMany s r (Refresh s db env r).1 envs).1 = (Refresh s db env r).1 ∧
          (refreshMany s r (Refresh s db env r).1 envs).2.length = envs.length ∧
          ∀ resp ∈ (refreshMany s r (Refresh s db env r).1 envs).2,
            resp.status = StatusUnauthorized := by
  have hfirst := Refresh_of_active s db env r t rec hcookie hsel hact.1 (le_of_lt hact.2)
    hget hrev hcre
  rw [hfirst]
  refine ⟨rfl, rfl, rfl, ?_⟩
  intro envs
  have hsel1 := sqlSelect_sqlInsert_of_some env.refreshID rec.UserID env.refreshToken
    (env.nowCreate + RefreshTTLProd) (sqlSelect_sqlRevoke_of_some env.nowRevoke hsel)
  exact refreshMany_of_revoked s r t _ hcookie (by simp) _ hsel1 envs

/-- Witness of `C1_refresh_once` on the sample store: the first refresh of `t1` succeeds
and two more attempts, one of them with the store down, are refused. -/
theorem C1_refresh_once_witness :
    (Refresh demoService demoTable demoRefreshEnv (cookieRequest "t1")).2.status = StatusOK ∧
      (Refresh demoService demoTable demoRefreshEnv (cookieRequest "t1")).2.cookies =
        [setRefreshCookie "t2"] ∧
      (Refresh demoService demoTable demoRefreshEnv (cookieRequest "t1")).1 =
        sqlInsert (sqlRevoke demoTable 11 "t1") "i2" "u1" "t2" (12 + RefreshTTLProd) ∧
      ∀ envs : List RefreshEnv,
        (refreshMany demoService (cookieRequest "t1")
            (Refresh demoService demoTable demoRefreshEnv (cookieRequest "t1")).1 envs).1 =
          (Refresh demoService demoTable demoRefreshEnv (cookieRequest "t1")).1 ∧
          (refreshMany demoService (cookieRequest "t1")
            (Refresh demoService demoTable demoRefreshEnv (cookieRequest "t1")).1 envs).2.length =
            envs.length ∧
          ∀ resp ∈ (refreshMany demoService (cookieRequest "t1")
              (Refresh demoService demoTable demoRefreshEnv (cookieRequest "t1")).1 envs).2,
            resp.status = StatusUnauthorized :=
  C1_refresh_once demoService demoTable demoRefreshEnv (cookieRequest "t1") "t1"
    { UserID := "u1", ExpiresAt := 100, RevokedAt := none } rfl (by decide) (by decide)
    rfl rfl rfl

/-! ## C5: what a failed refresh shows -/

/-- C5, as stated, fails: on the sample store a refresh with an unknown token and a
refresh with the revoked token `t0` both fail validation with status 401, but their
bodies differ. -/
theorem C5_counterexample :
    (Refresh demoService demoTable demoRefreshEnv (cookieRequest "nope")).2 =
        httpError "Invalid refresh token" StatusUnauthorized ∧
      (Refresh demoService demoTable demoRefreshEnv (cookieRequest "t0")).2 =
        httpError "refresh token revoked" StatusUnauthorized ∧
      (Refresh demoService demoTable demoRefreshEnv (cookieRequest "nope")).2 ≠
        (Refresh demoService demoTable demoRefreshEnv (cookieRequest "t0")).2 := by
  have h1 : (Refresh demoService demoTable demoRefreshEnv (cookieRequest "nope")).2 =
      httpError "Invalid refresh token" StatusUnauthorized := by
    simp [Refresh, cookieRequest, GetRefreshRecord, demoRefreshEnv, sqlSelect, demoTable]
  have h2 : (Refresh demoService demoTable demoRefreshEnv (cookieRequest "t0")).2 =
      httpError "refresh token revoked" StatusUnauthorized := by
    simp [Refresh, cookieRequest, GetRefreshRecord, demoRefreshEnv, sqlSelect, demoTable,
      ValidateRefreshRecord, timeAfter, Row.scan, Error.text]
  refine ⟨h1, h2, ?_⟩
  rw [h1, h2]
  decide

/-- C5, amended: every refresh request that fails credential validation is answered
with status 401, a plain-text body and no cookie, and leaves the store unchanged; the
body names the sub-case: `Invalid refresh token` when the lookup fails, `refresh token
expired` when the clock is after `ExpiresAt`, `refresh token revoked` for a revoked
record that is not expired. -/
theorem C5_refresh_failures (s : Service) (db : Table) (env : RefreshEnv) (t : String) :
    (∀ e, GetRefreshRecord db env.upGet t = .error e →
        Refresh s db env (cookieRequest t) =
          (db, httpError "Invalid refresh token" StatusUnauthorized)) ∧
      (∀ rec, GetRefreshRecord db env.upGet t = .ok rec → rec.ExpiresAt < env.nowValidate →
        Refresh s db env (cookieRequest t) =
          (db, httpError "refresh token expired" StatusUnauthorized)) ∧
      (∀ rec, GetRefreshRecord db env.upGet t = .ok rec → env.nowValidate ≤ rec.ExpiresAt →
        rec.RevokedAt ≠ none →
        Refresh s db env (cookieRequest t) =
          (db, httpError "refresh token revoked" StatusUnauthorized)) ∧
      (∀ e rec, (GetRefreshRecord db env.upGet t = .error e ∨
          (GetRefreshRecord db env.upGet t = .ok rec ∧
            ValidateRefreshRecord env.nowValidate rec ≠ none)) →
        (Refresh s db env (cookieRequest t)).1 = db ∧
          (Refresh s db env (cookieRequest t)).2.status = StatusUnauthorized ∧
          (Refresh s db env (cookieRequest t)).2.cookies = []) := by
  refine ⟨?_, ?_, ?_, ?_⟩
  · intro e h
    simp [Refresh, cookieRequest, h]
  · intro rec h hexp
    have hv := validate_expired env.nowValidate rec hexp
    simp [Refresh, cookieRequest, h, hv, Error.text]
  · intro rec h hle hrev
    have hv := validate_revoked env.nowValidate rec hle hrev
    simp [Refresh, cookieRequest, h, hv, Error.text]
  · intro e rec h
    rcases h with h | ⟨h, hv⟩
    · simp [Refresh, cookieRequest, h, httpError]
    · cases hv1 : ValidateRefreshRecord env.nowValidate rec with
      | none => exact absurd hv1 hv
      | some err => simp [Refresh, cookieRequest, h, hv1, httpError]

/-- Witness of `C5_refresh_failures` on the sample store: unknown token, expired record,
revoked record. -/
theorem C5_refresh_failures_witness :
    Refresh demoService demoTable demoRefreshEnv (cookieRequest "nope") =
        (demoTable, httpError "Invalid refresh token" StatusUnauthorized) ∧
      Refresh demoService demoTable { demoRefreshEnv with nowValidate := 101 }
          (cookieRequest "t1") =
        (demoTable, httpError "refresh token expired" StatusUnauthorized) ∧
      Refresh demoService demoTable demoRefreshEnv (cookieRequest "t0") =
        (demoTable, httpError "refresh token revoked" StatusUnauthorized) :=
  ⟨(C5_refresh_failures demoService demoTable demoRefreshEnv "nope").1 .errNoRows
      (by decide),
   (C5_refresh_failures demoService demoTable { demoRefreshEnv with nowValidate := 101 }
      "t1").2.1 { UserID := "u1", ExpiresAt := 100, RevokedAt := none } (by decide) (by decide),
   (C5_refresh_failures demoService demoTable demoRefreshEnv "t0").2.2.1
      { UserID := "u1", ExpiresAt := 100, RevokedAt := some 5 } (by decide) (by decide)
      (by decide)⟩

/-! ## C10: logout -/

/-- C10: for a logout request that carries a refresh cookie, whether or not the store
executes the revoke, `Logout` answers 200 `Logged out successfully` and sets the cookie
`refresh_token` to the empty value with `Max-Age = -1`; the response is the same for
both outcomes of the revoke. -/
theorem C10_logout_clears (db : Table) (upRevoke : Bool) (nowRevoke : Time) (value : String)
    (r : Request) :
    (Logout db upRevoke nowRevoke { r with refreshCookie := some value }).2 =
        { status := StatusOK, contentType := none, cookies := [clearRefreshCookie],
          body := .text "Logged out successfully" } ∧
      clearRefreshCookie.Name = "refresh_token" ∧ clearRefreshCookie.Value = "" ∧
      clearRefreshCookie.MaxAge = -1 ∧
      (Logout db true nowRevoke { r with refreshCookie := some value }).2 =
        (Logout db false nowRevoke { r with refreshCookie := some value }).2 ∧
      (Logout db false nowRevoke { r with refreshCookie := some value }).1 = db := by
  simp [Logout, clearRefreshCookie, RevokeRefreshToken]

/-! ## C7: claims of an access token -/

theorem timeUnix_add_seconds (t : Time) (k : Int) :
    timeUnix (timeAdd t (k * Second)) = timeUnix t + k := by
  unfold timeUnix timeAdd Second
  omega

/-- C7, as stated, fails: with the 15 s TTL of `Exchange`, when the second ticks between
the two clock readings of `CreateAccessToken` (first reading 0.999999999 s, second
1.000000000 s) the claim set has `exp = 15` and `iat = 1`, so `exp ≠ iat + 15`. -/
theorem C7_counterexample :
    (accessClaims "u1" AccessTTLDev 999999999 1000000000).lookup "exp" = some (.num 15) ∧
      (accessClaims "u1" AccessTTLDev 999999999 1000000000).lookup "iat" = some (.num 1) ∧
      (15 : Int) ≠ 1 + durationSeconds AccessTTLDev ∧
      (999999999 : Time) ≤ 1000000000 := by
  decide

/-- C7, amended: for every subject and every TTL of a whole number `k` of seconds, the
claim set built by `CreateAccessToken` has `sub` equal to the subject, `iat` the second
of the second clock reading and `exp` the second of the first clock reading plus `k`;
hence `exp = iat + k` whenever both readings fall in the same second.  `Exchange`, for
an assertion verified as `userID` and with the store available, returns the token
signed over this claim set with `k = 15`. -/
theorem C7_access_claims (s : Service) (db : Table) (env : ExchangeEnv) (r : Request)
    (userID : String) (k : Int) (nowExp nowIat : Time) :
    (accessClaims userID (k * Second) nowExp nowIat).lookup "sub" = some (.str userID) ∧
      (accessClaims userID (k * Second) nowExp nowIat).lookup "iat" =
        some (.num (timeUnix nowIat)) ∧
      (accessClaims userID (k * Second) nowExp nowIat).lookup "exp" =
        some (.num (timeUnix nowExp + k)) ∧
      (timeUnix nowExp = timeUnix nowIat →
        (accessClaims userID (k * Second) nowExp nowIat).lookup "exp" =
          some (.num (timeUnix nowIat + k))) ∧
      (∀ idToken, r.idToken = some idToken → s.FirebaseAuth idToken = some userID →
        env.upCreate = true →
        (Exchange s db env r).2.body =
            .json [("access_token", s.jwt.encode
              { alg := .HS256,
                claims := accessClaims userID (15 * Second) env.nowExp env.nowIat,
                mac := some s.JWTSecret })] ∧
          (Exchange s db env r).2.status = StatusOK) := by
  have hexp : (accessClaims userID (k * Second) nowExp nowIat).lookup "exp" =
      some (.num (timeUnix nowExp + k)) := by
    simp [accessClaims, List.lookup, timeUnix_add_seconds]
  refine ⟨by simp [accessClaims, List.lookup], by simp [accessClaims, List.lookup], hexp, ?_, ?_⟩
  · intro h
    rw [hexp, h]
  · intro idToken hid hver hup
    simp [Exchange, hid, hver, hup, CreateAccessToken, CreateRefreshToken, tokenResponse,
      AccessTTLDev]

/-- Witness of `C7_access_claims`: both readings in second 7, and the sample service
exchanging the assertion `good`. -/
theorem C7_access_claims_witness :
    (accessClaims "u1" (15 * Second) 7000000001 7999999999).lookup "exp" =
        some (.num (timeUnix 7999999999 + 15)) ∧
      (Exchange demoService demoTable
          { nowExp := 7000000001, nowIat := 7999999999, nowCreate := 8000000000,
            upCreate := true, refreshToken := "t2", refreshID := "i2" }
          { authorization := "", refreshCookie := none, idToken := some "good",
            ctxUserID := none }).2.status = StatusOK :=
  have h := C7_access_claims demoService demoTable
    { nowExp := 7000000001, nowIat := 7999999999, nowCreate := 8000000000,
      upCreate := true, refreshToken := "t2", refreshID := "i2" }
    { authorization := "", refreshCookie := none, idToken := some "good", ctxUserID := none }
    "u1" 15 7000000001 7999999999
  ⟨h.2.2.2.1 (by decide), (h.2.2.2.2 "good" rfl (by decide) rfl).2⟩

/-! ## C8: the access middleware -/

theorem strTake_append_strDrop (n : Nat) (str : String) :
    strTake n str ++ strDrop n str = str := by
  apply String.ext
  rw [String.data_append]
  exact List.take_append_drop n str.data

theorem bearer_length : bearer.length = 7 := by decide

theorem strTake_bearer_append (ts : String) : strTake bearer.length (bearer ++ ts) = bearer := by
  apply String.ext
  show List.take bearer.length (bearer ++ ts).data = bearer.data
  rw [String.data_append]
  exact List.take_left' rfl

theorem strDrop_bearer_append (ts : String) : strDrop bearer.length (bearer ++ ts) = ts := by
  apply String.ext
  show List.drop bearer.length (bearer ++ ts).data = ts.data
  rw [String.data_append]
  exact List.drop_left' rfl

theorem length_bearer_append (ts : String) :
    (bearer ++ ts).length = bearer.length + ts.length :=
  String.length_append bearer ts

theorem length_pos_of_ne_empty (ts : String) (h : ts ≠ "") : 0 < ts.length := by
  rcases Nat.eq_zero_or_pos ts.length with h0 | h0
  · exact absurd (String.ext (List.length_eq_zero.1 h0)) h
  · exact h0

theorem bearer_append_ne_empty (ts : String) : bearer ++ ts ≠ "" := by
  intro h
  have := congrArg String.length h
  rw [length_bearer_append, bearer_length] at this
  simp at this

/-- The middleware reaches `jwt.Parse` exactly on a header `Bearer ` plus a non-empty
token, and then acts on the result of the parse alone. -/
theorem JWTMiddlewareStep_bearer (s : Service) (now : Time) (ts : String) (h : ts ≠ "") :
    JWTMiddlewareStep s now (bearer ++ ts) =
      match jwtParse s.jwt ts s.JWTSecret now with
      | .error _ => .respond (httpError "Invalid or expired token" StatusUnauthorized)
      | .ok claims =>
        match claims.lookup "sub" with
        | some (.str userID) => .callNext userID
        | _ => .fault := by
  have hlen : ¬ (bearer ++ ts).length ≤ bearer.length := by
    rw [length_bearer_append]
    have := length_pos_of_ne_empty ts h
    omega
  simp only [JWTMiddlewareStep, bearer_append_ne_empty, hlen, strTake_bearer_append,
    strDrop_bearer_append, if_false, ne_eq, not_true_eq_false, or_self]

theorem JWTMiddlewareStep_no_bearer (s : Service) (now : Time) (authHeader : String)
    (h : ∀ ts, ts ≠ "" → authHeader ≠ bearer ++ ts) :
    ∃ msg, JWTMiddlewareStep s now authHeader = .respond (httpError msg StatusUnauthorized) := by
  unfold JWTMiddlewareStep
  by_cases h1 : authHeader = ""
  · exact ⟨"Missing Authorization header", by simp [h1]⟩
  · by_cases h2 : authHeader.length ≤ bearer.length ∨ strTake bearer.length authHeader ≠ bearer
    · exact ⟨"Invalid Authorization format", by simp [h1, h2]⟩
    · exfalso
      have h3 : ¬ authHeader.length ≤ bearer.length := fun hh => h2 (Or.inl hh)
      have h4 : strTake bearer.length authHeader = bearer := by
        by_contra hh
        exact h2 (Or.inr hh)
      have hsplit := strTake_append_strDrop bearer.length authHeader
      rw [h4] at hsplit
      refine h (strDrop bearer.length authHeader) ?_ hsplit.symm
      intro hempty
      rw [hempty] at hsplit
      have hl := congrArg String.length hsplit
      rw [length_bearer_append] at hl
      have h0 : ("" : String).length = 0 := rfl
      omega

theorem jwtParse_ok_iff (codec : Codec) (ts : String) (key : Secret) (now : Time)
    (claims : MapClaims) :
    jwtParse codec ts key now = .ok claims ↔
      ∃ tok, codec.decode ts = some tok ∧ tok.alg ≠ .other ∧ tok.mac = some key ∧
        validateClaims now tok.claims = none ∧ tok.claims = claims := by
  unfold jwtParse
  cases hd : codec.decode ts with
  | none => simp
  | some tok =>
    by_cases hm : tok.mac = some key
    · cases hv : validateClaims now tok.claims with
      | none => cases ha : tok.alg <;> simp [hm, hv, ha]
      | some e => cases ha : tok.alg <;> simp [hm, hv, ha]
    · cases ha : tok.alg <;> simp [hm, ha]

theorem validateClaims_none_exp (now : Time) (c : MapClaims)
    (h : validateClaims now c = none) : verifyExpiresAt now c = none := by
  unfold validateClaims at h
  cases hv : verifyExpiresAt now c with
  | none => rfl
  | some e => simp [hv] at h

theorem verifyExpiresAt_past (now : Time) (c : MapClaims) (e : Int)
    (h1 : c.lookup "exp" = some (.num e)) (h2 : timeOfUnix e ≤ now) :
    verifyExpiresAt now c = some .expired := by
  have : ¬ now < timeOfUnix e := not_lt.mpr h2
  simp [verifyExpiresAt, h1, timeBefore, this]

theorem jwtParse_error_of_failure (codec : Codec) (ts : String) (key : Secret) (now : Time)
    (h : codec.decode ts = none ∨ (∃ tok, codec.decode ts = some tok ∧ tok.mac ≠ some key) ∨
      (∃ tok e, codec.decode ts = some tok ∧ tok.claims.lookup "exp" = some (.num e) ∧
        timeOfUnix e ≤ now)) :
    ∃ err, jwtParse codec ts key now = .error err := by
  cases hp : jwtParse codec ts key now with
  | error err => exact ⟨err, rfl⟩
  | ok claims =>
    exfalso
    obtain ⟨tok, hd, _, hm, hv, _⟩ := (jwtParse_ok_iff codec ts key now claims).1 hp
    rcases h with h | ⟨tok1, hd1, hm1⟩ | ⟨tok1, e, hd1, he, hle⟩
    · rw [hd] at h; exact Option.noConfusion h
    · rw [hd] at hd1
      exact hm1 (Option.some.inj hd1 ▸ hm)
    · rw [hd] at hd1
      have hx := verifyExpiresAt_past now tok.claims e (Option.some.inj hd1 ▸ he) hle
      rw [validateClaims_none_exp now tok.claims hv] at hx
      exact Option.noConfusion hx

/-- C8: `JWTMiddleware` calls the downstream handler only for a header `Bearer ` followed
by a token that decodes, carries a signature made with the service secret, and is not
past its `exp`.  An absent header, a header without the `Bearer ` prefix, and a header
whose token is structurally invalid, signed with another secret or past its expiry are
answered with 401 by the middleware itself; for a non-empty token these three failures
give one and the same response.  A response of the middleware is returned whatever the
downstream handler is. -/
theorem C8_middleware (s : Service) (now : Time) (r : Request) :
    (∀ userID, JWTMiddlewareStep s now r.authorization = .callNext userID →
        ∃ ts tok, r.authorization = bearer ++ ts ∧ s.jwt.decode ts = some tok ∧
          tok.alg ≠ .other ∧ tok.mac = some s.JWTSecret ∧
          (∀ e, tok.claims.lookup "exp" = some (.num e) → now < timeOfUnix e) ∧
          tok.claims.lookup "sub" = some (.str userID)) ∧
      (r.authorization = "" →
        JWTMiddlewareStep s now r.authorization =
          .respond (httpError "Missing Authorization header" StatusUnauthorized)) ∧
      ((∀ ts, r.authorization ≠ bearer ++ ts) →
        ∃ msg, JWTMiddlewareStep s now r.authorization =
          .respond (httpError msg StatusUnauthorized)) ∧
      (∀ ts, r.authorization = bearer ++ ts →
        (s.jwt.decode ts = none ∨
          (∃ tok, s.jwt.decode ts = some tok ∧ tok.mac ≠ some s.JWTSecret) ∨
          (∃ tok e, s.jwt.decode ts = some tok ∧ tok.claims.lookup "exp" = some (.num e) ∧
            timeOfUnix e ≤ now)) →
        (∃ msg, JWTMiddlewareStep s now r.authorization =
          .respond (httpError msg StatusUnauthorized)) ∧
        (ts ≠ "" → JWTMiddlewareStep s now r.authorization =
          .respond (httpError "Invalid or expired token" StatusUnauthorized))) ∧
      (∀ resp, JWTMiddlewareStep s now r.authorization = .respond resp →
        ∀ next, JWTMiddleware s next now r = .wrote resp) := by
  refine ⟨?_, ?_, ?_, ?_, ?_⟩
  · intro userID hstep
    by_cases hb : ∃ ts, ts ≠ "" ∧ r.authorization = bearer ++ ts
    · obtain ⟨ts, hts, hauth⟩ := hb
      rw [hauth, JWTMiddlewareStep_bearer s now ts hts] at hstep
      cases hp : jwtParse s.jwt ts s.JWTSecret now with
      | error err => simp [hp] at hstep
      | ok claims =>
        obtain ⟨tok, hd, ha, hm, hv, hc⟩ := (jwtParse_ok_iff _ _ _ _ _).1 hp
        have hsub : claims.lookup "sub" = some (.str userID) := by
          rw [hp] at hstep
          cases hl : claims.lookup "sub" with
          | none => simp [hl] at hstep
          | some v =>
            cases v with
            | str u => simp [hl] at hstep; rw [hstep]
            | num n => simp [hl] at hstep
            | other => simp [hl] at hstep
        refine ⟨ts, tok, hauth, hd, ha, hm, ?_, hc ▸ hsub⟩
        intro e he
        have hx := validateClaims_none_exp now tok.claims hv
        by_contra hlt
        rw [verifyExpiresAt_past now tok.claims e he (not_lt.mp hlt)] at hx
        exact Option.noConfusion hx
    · exfalso
      obtain ⟨msg, hmsg⟩ := JWTMiddlewareStep_no_bearer s now r.authorization
        (fun ts hts hauth => hb ⟨ts, hts, hauth⟩)
      rw [hmsg] at hstep
      exact MwStep.noConfusion hstep
  · intro h
    simp [JWTMiddlewareStep, h]
  · intro h
    exact JWTMiddlewareStep_no_bearer s now r.authorization (fun ts _ => h ts)
  · intro ts hauth hfail
    obtain ⟨err, herr⟩ := jwtParse_error_of_failure s.jwt ts s.JWTSecret now hfail
    have hne : ts ≠ "" → JWTMiddlewareStep s now r.authorization =
        .respond (httpError "Invalid or expired token" StatusUnauthorized) := by
      intro hts
      rw [hauth, JWTMiddlewareStep_bearer s now ts hts, herr]
    refine ⟨?_, hne⟩
    by_cases hts : ts = ""
    · refine JWTMiddlewareStep_no_bearer s now r.authorization ?_
      intro ts1 hts1 hauth1
      rw [hauth, hts] at hauth1
      have hl := congrArg String.length hauth1
      rw [length_bearer_append, length_bearer_append] at hl
      have h0 : ("" : String).length = 0 := rfl
      have := length_pos_of_ne_empty ts1 hts1
      omega
    · exact ⟨_, hne hts⟩
  · intro resp h next
    simp [JWTMiddleware, h]

/-- Witness of `C8_middleware` on the sample service: a token past its expiry, and a
request without the header. -/
theorem C8_middleware_witness :
    JWTMiddlewareStep demoService 20000000000
        (bearerRequest (bearer ++ unaryCodec.encode expiredToken)).authorization =
        .respond (httpError "Invalid or expired token" StatusUnauthorized) ∧
      JWTMiddlewareStep demoService 20000000000 (bearerRequest "").authorization =
        .respond (httpError "Missing Authorization header" StatusUnauthorized) :=
  ⟨((C8_middleware demoService 20000000000
        (bearerRequest (bearer ++ unaryCodec.encode expiredToken))).2.2.2.1
        (unaryCodec.encode expiredToken) rfl
        (Or.inr (Or.inr ⟨expiredToken, 10, unaryCodec.decode_encode expiredToken, by decide,
          by decide⟩))).2 (unaryCodec.encode_ne_empty expiredToken),
   (C8_middleware demoService 20000000000 (bearerRequest "")).2.1 rfl⟩

/-! ## C9: issue, then verify -/

/-- C9: for every subject, secret and TTL, `CreateAccessToken` returns a token, and a
request presenting it as `Bearer <token>` at any time before the second of its `exp`
claim passes `JWTMiddleware` under the same secret: the assertion on `sub` does not
fault, the downstream handler is called with the original subject, and `Profile`
answers 200 with `user_id` equal to it. -/
theorem C9_round_trip (s : Service) (userID : String) (accessTTL : Duration)
    (nowExp nowIat now : Time)
    (hbefore : now < timeOfUnix (timeUnix (timeAdd nowExp accessTTL))) :
    ∃ token, CreateAccessToken s userID accessTTL nowExp nowIat = .ok token ∧
      ∀ r : Request, r.authorization = bearer ++ token →
        JWTMiddlewareStep s now r.authorization = .callNext userID ∧
          JWTMiddleware s Profile now r =
            .wrote { status := StatusOK, contentType := some "application/json", cookies := [],
                     body := .json [("message", profileMessage), ("user_id", userID)] } := by
  refine ⟨_, rfl, ?_⟩
  intro r hauth
  have hparse : jwtParse s.jwt
      (s.jwt.encode { alg := .HS256, claims := accessClaims userID accessTTL nowExp nowIat,
                      mac := some s.JWTSecret }) s.JWTSecret now =
      .ok (accessClaims userID accessTTL nowExp nowIat) := by
    rw [jwtParse_ok_iff]
    refine ⟨_, s.jwt.decode_encode _, by simp, rfl, ?_, rfl⟩
    simp [validateClaims, verifyExpiresAt, verifyNotBefore, accessClaims, List.lookup,
      timeBefore, hbefore]
  have hstep : JWTMiddlewareStep s now r.authorization = .callNext userID := by
    rw [hauth, JWTMiddlewareStep_bearer s now _ (s.jwt.encode_ne_empty _), hparse]
    simp [accessClaims, List.lookup]
  refine ⟨hstep, ?_⟩
  simp [JWTMiddleware, hstep, Profile]

/-- Witness of `C9_round_trip`: the sample service issues a 15 s token for `u1` at second
7 and verifies it at second 20. -/
theorem C9_round_trip_witness :
    ∃ token, CreateAccessToken demoService "u1" AccessTTLDev 7000000001 7000000002 = .ok token ∧
      ∀ r : Request, r.authorization = bearer ++ token →
        JWTMiddlewareStep demoService 20000000000 r.authorization = .callNext "u1" ∧
          JWTMiddleware demoService Profile 20000000000 r =
            .wrote { status := StatusOK, contentType := some "application/json", cookies := [],
                     body := .json [("message", profileMessage), ("user_id", "u1")] } :=
  C9_round_trip demoService "u1" AccessTTLDev 7000000001 7000000002 20000000000 (by decide)

/-! ## C6: two refresh calls racing on one token -/

/-- The statement-wise handler agrees with `Handler.Refresh`: three steps of
`refreshStep` in a row, with the clock readings and availabilities of `env`, end in the
store and the response of `Refresh`. -/
theorem refreshStep_refines_Refresh (s : Service) (db : Table) (env : RefreshEnv) (t : String) :
    let c : CallEnv := { refreshToken := env.refreshToken, refreshID := env.refreshID,
                         nowExp := env.nowExp, nowIat := env.nowIat }
    let r1 := refreshStep s t c env.upGet env.nowValidate db .start
    let r2 := refreshStep s t c env.upRevoke env.nowRevoke r1.1 r1.2
    let r3 := refreshStep s t c env.upCreate env.nowCreate r2.1 r2.2
    r3 = ((Refresh s db env (cookieRequest t)).1, .done (Refresh s db env (cookieRequest t)).2) := by
  simp only [Refresh, cookieRequest]
  cases hg : GetRefreshRecord db env.upGet t with
  | error e => simp [refreshStep, hg]
  | ok rec =>
    cases hv : ValidateRefreshRecord env.nowValidate rec with
    | some err => simp [refreshStep, hg, hv]
    | none =>
      cases hr : env.upRevoke <;> cases hc : env.upCreate <;>
        simp [refreshStep, hg, hv, hr, hc, RotateRefreshToken, RevokeRefreshToken,
          CreateRefreshToken, CreateAccessToken]

theorem sqlSelect_sqlInsert (db : Table) (id userID tok : String) (e : Time) (token : String) :
    sqlSelect (sqlInsert db id userID tok e) token =
      match sqlSelect db token with
      | some rec => some rec
      | none => if tok = token then some { UserID := userID, ExpiresAt := e, RevokedAt := none }
                else none := by
  simp only [sqlSelect, sqlInsert, List.find?_append]
  cases h : List.find? (fun r => decide (r.token = token)) db with
  | some a => simp
  | none =>
    by_cases ht : tok = token
    · simp [List.find?, ht, Row.scan]
    · simp [List.find?, ht]

theorem refreshStep_start_up (s : Service) (t : String) (c : CallEnv) (now : Time) (db : Table) :
    refreshStep s t c true now db .start =
      match sqlSelect db t with
      | none => (db, .done (httpError "Invalid refresh token" StatusUnauthorized))
      | some rec =>
        match ValidateRefreshRecord now rec with
        | some err => (db, .done (httpError err.text StatusUnauthorized))
        | none => (db, .validated rec.UserID) := by
  simp only [refreshStep, GetRefreshRecord, if_true]
  cases sqlSelect db t <;> rfl

theorem refreshStep_validated_up (s : Service) (t : String) (c : CallEnv) (now : Time)
    (db : Table) (userID : String) :
    refreshStep s t c true now db (.validated userID) = (sqlRevoke db now t, .revoked userID) := by
  simp [refreshStep, RevokeRefreshToken]

theorem refreshStep_revoked_up (s : Service) (t : String) (c : CallEnv) (now : Time)
    (db : Table) (userID : String) :
    refreshStep s t c true now db (.revoked userID) =
      (sqlInsert db c.refreshID userID c.refreshToken (now + RefreshTTLProd),
        .done (tokenResponse c.refreshToken
          (s.jwt.encode { alg := .HS256,
                          claims := accessClaims userID AccessTTLDev c.nowExp c.nowIat,
                          mac := some s.JWTSecret }))) := by
  simp [refreshStep, CreateRefreshToken, CreateAccessToken, timeAdd]

theorem refreshStep_done (s : Service) (t : String) (c : CallEnv) (up : Bool) (now : Time)
    (db : Table) (resp : Response) :
    refreshStep s t c up now db (.done resp) = (db, .done resp) := rfl

theorem validate_active (now : Time) (userID : String) (e : Time) (h : now ≤ e) :
    ValidateRefreshRecord now { UserID := userID, ExpiresAt := e, RevokedAt := none } = none :=
  (validate_eq_none_iff _ _).2 ⟨rfl, h⟩

theorem validate_stamped (now : Time) (userID : String) (e stamp : Time) (h : now ≤ e) :
    ValidateRefreshRecord now { UserID := userID, ExpiresAt := e, RevokedAt := some stamp } =
      some (.new "refresh token revoked") :=
  validate_revoked _ _ h (by simp)

/-- C6, as stated, fails: on the sample store, with both calls presenting the active
token `t1` and the schedule lookup a, lookup b, revoke a, revoke b, create a, create b,
both calls observe the record as active and both mint; the store gains two records. -/
theorem C6_counterexample :
    [false, true, false, true, false, true] ∈ interleavings 3 3 ∧
      (raceRun demoService "t1" demoCallA demoCallB (fun _ => 10) (fun _ => true)
        [false, true, false, true, false, true] 0 (demoTable, .start, .start)).2.1.minted = true ∧
      (raceRun demoService "t1" demoCallA demoCallB (fun _ => 10) (fun _ => true)
        [false, true, false, true, false, true] 0 (demoTable, .start, .start)).2.2.minted = true ∧
      (raceRun demoService "t1" demoCallA demoCallB (fun _ => 10) (fun _ => true)
        [false, true, false, true, false, true] 0 (demoTable, .start, .start)).1.map Row.token =
        ["t1", "t0", "ta", "tb"] := by
  refine ⟨by simp [interleavings], ?_, ?_, ?_⟩ <;>
    simp [raceRun, refreshStep_start_up, refreshStep_validated_up, refreshStep_revoked_up,
      refreshStep_done, sqlSelect_sqlRevoke, sqlSelect_sqlInsert, demoTable, sqlSelect,
      Row.scan, validate_active, validate_stamped, CallState.minted, tokenResponse,
      sqlRevoke, sqlInsert, demoCallA, demoCallB]

/-- C6, amended: two `Refresh` calls for the same active token, store available and the
record unexpired throughout, under any interleaving of their store statements.  If one
call runs its revoke before the other runs its lookup, exactly one call mints and the
other fails with 401, the store gaining one record.  If both lookups come before either
revoke, both calls observe the record as active and both mint, the store gaining two
records. -/
theorem C6_race (s : Service) (db : Table) (t userID : String) (e : Time) (a b : CallEnv)
    (clock : Nat → Time) (up : Nat → Bool) (sched : List Bool)
    (hsched : sched ∈ interleavings 3 3)
    (hsel : sqlSelect db t = some { UserID := userID, ExpiresAt := e, RevokedAt := none })
    (hclock : ∀ i, clock i ≤ e) (hup : ∀ i, up i = true) :
    (lookupsFirst sched = false →
        (((raceRun s t a b clock up sched 0 (db, .start, .start)).2.1.minted = true ∧
            (raceRun s t a b clock up sched 0 (db, .start, .start)).2.2.unauthorized = true) ∨
          ((raceRun s t a b clock up sched 0 (db, .start, .start)).2.1.unauthorized = true ∧
            (raceRun s t a b clock up sched 0 (db, .start, .start)).2.2.minted = true)) ∧
        (raceRun s t a b clock up sched 0 (db, .start, .start)).1.length = db.length + 1) ∧
      (lookupsFirst sched = true →
        (raceRun s t a b clock up sched 0 (db, .start, .start)).2.1.minted = true ∧
          (raceRun s t a b clock up sched 0 (db, .start, .start)).2.2.minted = true ∧
          (raceRun s t a b clock up sched 0 (db, .start, .start)).1.length = db.length + 2) := by
  simp only [interleavings, List.replicate, List.map, List.append, List.mem_cons,
    List.mem_singleton, List.cons_append, List.nil_append, List.not_mem_nil, or_false] at hsched
  rcases hsched with h | h | h | h | h | h | h | h | h | h | h | h | h | h | h | h | h | h | h | h <;>
    subst h <;>
    simp [raceRun, lookupsFirst, hup, hclock, hsel, refreshStep_start_up,
      refreshStep_validated_up, refreshStep_revoked_up, refreshStep_done, sqlSelect_sqlRevoke,
      sqlSelect_sqlInsert, validate_active, validate_stamped, CallState.minted,
      CallState.unauthorized, tokenResponse, httpError, sqlRevoke_length, sqlInsert_length,
      StatusOK, StatusUnauthorized]

/-- Witness of `C6_race` on the sample store: call `a` runs to its end before call `b`
starts, so `a` mints and `b` is refused. -/
theorem C6_race_witness :
    [false, false, false, true, true, true] ∈ interleavings 3 3 ∧
      (lookupsFirst [false, false, false, true, true, true] = false →
        (((raceRun demoService "t1" demoCallA demoCallB (fun _ => 10) (fun _ => true)
              [false, false, false, true, true, true] 0
              (demoTable, .start, .start)).2.1.minted = true ∧
            (raceRun demoService "t1" demoCallA demoCallB (fun _ => 10) (fun _ => true)
              [false, false, false, true, true, true] 0
              (demoTable, .start, .start)).2.2.unauthorized = true) ∨
          ((raceRun demoService "t1" demoCallA demoCallB (fun _ => 10) (fun _ => true)
              [false, false, false, true, true, true] 0
              (demoTable, .start, .start)).2.1.unauthorized = true ∧
            (raceRun demoService "t1" demoCallA demoCallB (fun _ => 10) (fun _ => true)
              [false, false, false, true, true, true] 0
              (demoTable, .start, .start)).2.2.minted = true)) ∧
        (raceRun demoService "t1" demoCallA demoCallB (fun _ => 10) (fun _ => true)
          [false, false, false, true, true, true] 0
          (demoTable, .start, .start)).1.length = demoTable.length + 1) :=
  ⟨by simp [interleavings],
   (C6_race demoService demoTable "t1" "u1" 100 demoCallA demoCallB (fun _ => 10)
      (fun _ => true) [false, false, false, true, true, true] (by simp [interleavings])
      (by decide) (fun _ => (by decide : (10 : Time) ≤ 100)) (fun _ => rfl)).1⟩

end SecureAuth
